import Mathlib

/-!
Verification development for the nix-installer excerpt.

Shallow embedding of:
- `src/action/common/provision_nix.rs`: the `ProvisionNix` composite action
  (plan / execute / revert / descriptions / state accessors) and its error
  enum `ProvisionNixError`;
- `src/cli/subcommand/export.rs`: `calculate_environment`, `nonempty_var_os`,
  `env_path`, and the error-branch handling of `Export::execute`.

The leaf actions (FetchNix, CreateUsersAndGroup, CreateNixTree,
MoveUnpackedNix) and the driver wrapper (`ActionImplementation`'s
`try_execute`/`try_revert`) are not part of the excerpt; they are modelled
from the spec where noted, with their side-effecting bodies abstracted as
oracle outcomes carried by the action value.  Execution and reversal of the
composite are embedded as pure functions that also return an ordered trace
of which underlying child operations were actually invoked (spawn, join and
abort of the background tokio task included), so claims about "never runs"
and "aborts before returning" can be stated directly.
-/

/-- Modelled from the spec: the tri-state lifecycle marker `ActionState`
(`Uncompleted | Completed | Failed`); the type itself is outside the
excerpt. -/
inductive ActionState
| Uncompleted
| Completed
| Failed
deriving DecidableEq, Repr

/-- `ActionDescription { synopsis, explanation }`: purely descriptive. -/
structure ActionDescription where
  synopsis : String
  explanation : List String
deriving DecidableEq, Repr

/-- Error of the FetchNix leaf action (opaque payload). -/
structure FetchNixError where
  msg : String
deriving DecidableEq, Repr

/-- Error of the CreateUsersAndGroup leaf action (opaque payload). -/
structure CreateUsersAndGroupError where
  msg : String
deriving DecidableEq, Repr

/-- Error of the CreateNixTree leaf action (opaque payload). -/
structure CreateNixTreeError where
  msg : String
deriving DecidableEq, Repr

/-- Error of the MoveUnpackedNix leaf action (opaque payload). -/
structure MoveUnpackedNixError where
  msg : String
deriving DecidableEq, Repr

/-- Error of the CreateDirectory leaf action (opaque payload); it only
occurs as a variant of `ProvisionNixError`. -/
structure CreateDirectoryError where
  msg : String
deriving DecidableEq, Repr

/-- The `ProvisionNixError` enum of `provision_nix.rs` (lines 162-200): one
variant per child kind, each carrying the child error as its `#[source]`,
plus `Join` for a failed background-task join. -/
inductive ProvisionNixError
| FetchNix (source : FetchNixError)
| Join
| CreateDirectory (source : CreateDirectoryError)
| CreateUsersAndGroup (source : CreateUsersAndGroupError)
| CreateNixTree (source : CreateNixTreeError)
| MoveUnpackedNix (source : MoveUnpackedNixError)
deriving DecidableEq, Repr

/-- A value of `Box<dyn std::error::Error + Send + Sync>`: the type-erased
error actually returned by the composite's fallible methods.  Boxing via
`BoxableError::boxed` keeps the underlying error value as-is (one variant
per concrete error type that can flow through the composite); it does not
wrap it into `ProvisionNixError`. -/
inductive BoxedError
| fetchNix (e : FetchNixError)
| createUsersAndGroup (e : CreateUsersAndGroupError)
| createNixTree (e : CreateNixTreeError)
| moveUnpackedNix (e : MoveUnpackedNixError)
| provisionNix (e : ProvisionNixError)
| join
deriving DecidableEq, Repr

instance instDecidableEqExcept {ε α : Type} [DecidableEq ε] [DecidableEq α] :
    DecidableEq (Except ε α) := fun x y =>
  match x, y with
  | Except.ok a, Except.ok b =>
    if h : a = b then Decidable.isTrue (congrArg Except.ok h)
    else Decidable.isFalse (fun hc => h (Except.ok.inj hc))
  | Except.error a, Except.error b =>
    if h : a = b then Decidable.isTrue (congrArg Except.error h)
    else Decidable.isFalse (fun hc => h (Except.error.inj hc))
  | Except.ok _, Except.error _ => Decidable.isFalse (fun hc => Except.noConfusion hc)
  | Except.error _, Except.ok _ => Decidable.isFalse (fun hc => Except.noConfusion hc)

/-- Modelled from the spec: the dynamic part shared by every leaf action.
The leaf bodies are outside the excerpt, so the result of the leaf's
side-effecting `execute`/`revert` is abstracted as an oracle outcome
(`none` = the side effect succeeds when invoked), and the lists the leaf's
`execute_description()`/`revert_description()` would produce are carried as
data. -/
structure ActionCore (ε : Type) where
  action_state : ActionState
  execOutcome : Option ε
  revertOutcome : Option ε
  execute_description : List ActionDescription
  revert_description : List ActionDescription
deriving DecidableEq, Repr

/-- Modelled from the spec: a leaf's `execute()` "performs the side effect
... Sets `Completed` on success only" (spec section 4.1). -/
def ActionCore.execute {ε : Type} (c : ActionCore ε) : Except ε (ActionCore ε) :=
  match c.execOutcome with
  | some e => Except.error e
  | none => Except.ok { c with action_state := ActionState.Completed }

/-- Modelled from the spec: a leaf's `revert()` "undoes the side effect ...
sets `Uncompleted` on success" (spec section 4.1). -/
def ActionCore.revert {ε : Type} (c : ActionCore ε) : Except ε (ActionCore ε) :=
  match c.revertOutcome with
  | some e => Except.error e
  | none => Except.ok { c with action_state := ActionState.Uncompleted }

/-- Modelled from the spec: `try_execute` is "a wrapper that skips work if
already `Completed` and otherwise calls `execute()`" (spec section 4.2);
`ActionImplementation` is not part of the excerpt.  The boolean records
whether the underlying `execute` was actually invoked. -/
def ActionCore.tryExecute {ε : Type} (c : ActionCore ε) :
    Bool × Except ε (ActionCore ε) :=
  if c.action_state = ActionState.Completed then (false, Except.ok c)
  else (true, c.execute)

/-- Modelled from the spec: `try_revert` skips a child that is already
`Uncompleted` ("calling revert again only undoes what is actually
`Completed`", spec section 4.2) and otherwise calls `revert()`.  The boolean
records whether the underlying `revert` was actually invoked. -/
def ActionCore.tryRevert {ε : Type} (c : ActionCore ε) :
    Bool × Except ε (ActionCore ε) :=
  if c.action_state = ActionState.Uncompleted then (false, Except.ok c)
  else (true, c.revert)

/-- Modelled from the spec: `CommonSettings` carries the package source URL
used by the composite's `plan` (`settings.nix_package_url`); the planning
outcome of the users/group child, whose validation rules are outside the
excerpt, is abstracted as an oracle field. -/
structure CommonSettings where
  nix_package_url : String
  usersPlanFail : Option CreateUsersAndGroupError
deriving DecidableEq, Repr

/-- The FetchNix leaf: source URL, destination path, dynamic core. -/
structure FetchNix where
  url : String
  dest : String
  core : ActionCore FetchNixError
deriving DecidableEq, Repr

/-- The CreateUsersAndGroup leaf: installer settings, dynamic core. -/
structure CreateUsersAndGroup where
  settings : CommonSettings
  core : ActionCore CreateUsersAndGroupError
deriving DecidableEq, Repr

/-- The CreateNixTree leaf: no configuration, dynamic core. -/
structure CreateNixTree where
  core : ActionCore CreateNixTreeError
deriving DecidableEq, Repr

/-- The MoveUnpackedNix leaf: temporary source path, dynamic core. -/
structure MoveUnpackedNix where
  src : String
  core : ActionCore MoveUnpackedNixError
deriving DecidableEq, Repr

/-- A freshly planned dynamic core: `Uncompleted`, no recorded outcomes or
descriptions. -/
def ActionCore.planned (ε : Type) : ActionCore ε :=
  { action_state := ActionState.Uncompleted
    execOutcome := none
    revertOutcome := none
    execute_description := []
    revert_description := [] }

/-- Modelled from the spec: `FetchNix::plan(url, dest)` validates the
configuration ("e.g., checking a URL is well-formed") and stores the source
URL and destination path in a ready, `Uncompleted` action; the leaf body is
outside the excerpt, so well-formedness is modelled as the URL being
non-empty. -/
def FetchNix.plan (url : String) (dest : String) : Except FetchNixError FetchNix :=
  if url = "" then Except.error { msg := "fetch url is not well-formed" }
  else Except.ok { url := url, dest := dest, core := ActionCore.planned FetchNixError }

/-- Modelled from the spec: `CreateUsersAndGroup::plan(settings)` validates
the installer-wide settings and stores them; its validation rules are
outside the excerpt and abstracted by the `usersPlanFail` oracle. -/
def CreateUsersAndGroup.plan (settings : CommonSettings) :
    Except CreateUsersAndGroupError CreateUsersAndGroup :=
  match settings.usersPlanFail with
  | some e => Except.error e
  | none => Except.ok { settings := settings, core := ActionCore.planned CreateUsersAndGroupError }

/-- Modelled from the spec: `CreateNixTree::plan()` takes no configuration
("no external configuration beyond defaults") and returns a ready,
`Uncompleted` action; its error type at this call site is already the boxed
error. -/
def CreateNixTree.plan : Except BoxedError CreateNixTree :=
  Except.ok { core := ActionCore.planned CreateNixTreeError }

/-- Modelled from the spec: `MoveUnpackedNix::plan(src)` stores the
temporary source path in a ready, `Uncompleted` action; the spec gives no
validation rule for it, so it is modelled as always valid. -/
def MoveUnpackedNix.plan (src : String) : Except MoveUnpackedNixError MoveUnpackedNix :=
  Except.ok { src := src, core := ActionCore.planned MoveUnpackedNixError }

/-- The `ProvisionNix` composite (struct of `provision_nix.rs`): the four
child slots in declared order plus the composite's own `action_state`. -/
structure ProvisionNix where
  fetch_nix : FetchNix
  create_users_and_group : CreateUsersAndGroup
  create_nix_tree : CreateNixTree
  move_unpacked_nix : MoveUnpackedNix
  action_state : ActionState
deriving DecidableEq, Repr

/-- `ProvisionNix::plan` (lines 27-50): plan each child in dependency
order; each child planning error is propagated after `map_err(|e|
e.boxed())` (`CreateNixTree::plan`'s error is already boxed and propagated
by `?` directly); on success the composite starts `Uncompleted`.  The fetch
child is planned with the settings' package URL and destination
`/nix/temp-install-dir`; the move child with the same source path. -/
def ProvisionNix.plan (settings : CommonSettings) : Except BoxedError ProvisionNix :=
  match FetchNix.plan settings.nix_package_url "/nix/temp-install-dir" with
  | Except.error e => Except.error (BoxedError.fetchNix e)
  | Except.ok fetch_nix =>
  match CreateUsersAndGroup.plan settings with
  | Except.error e => Except.error (BoxedError.createUsersAndGroup e)
  | Except.ok create_users_and_group =>
  match CreateNixTree.plan with
  | Except.error e => Except.error e
  | Except.ok create_nix_tree =>
  match MoveUnpackedNix.plan "/nix/temp-install-dir" with
  | Except.error e => Except.error (BoxedError.moveUnpackedNix e)
  | Except.ok move_unpacked_nix =>
  Except.ok
    { fetch_nix := fetch_nix
      create_users_and_group := create_users_and_group
      create_nix_tree := create_nix_tree
      move_unpacked_nix := move_unpacked_nix
      action_state := ActionState.Uncompleted }

/-- One observable event of the composite's `execute`/`revert`: spawn of the
background tokio task, an underlying child operation actually being invoked,
the join point, or `JoinHandle::abort`. -/
inductive OrchStep
| spawnFetchExec
| fetchExec
| usersExec
| treeExec
| moveExec
| joinFetchExec
| spawnFetchRevert
| fetchRevert
| usersRevert
| treeRevert
| moveRevert
| joinFetchRevert
| abortFetch
deriving DecidableEq, Repr

/-- The trace contribution of a conditionally invoked child operation:
`[s]` when the underlying operation ran, `[]` when it was skipped. -/
def condStep (b : Bool) (s : OrchStep) : List OrchStep :=
  if b then [s] else []

/-- `ProvisionNix::execute` (lines 79-102).  The background tokio task runs
`try_execute` on a clone of the fetch child; its underlying invocation is
recorded at spawn time (the task starts immediately and is never aborted on
this path).  Then `create_users_and_group.try_execute()?`,
`create_nix_tree.try_execute()?`, the join (`*fetch_nix = handle.await??`,
only assigning the joined clone on success), and finally
`move_unpacked_nix.try_execute()?`.  Returns the updated composite, the
ordered event trace, and `none` for `Ok(())` or the boxed error returned. -/
def ProvisionNix.execute (p : ProvisionNix) :
    ProvisionNix × List OrchStep × Option BoxedError :=
  let fetchStarted := (p.fetch_nix.core.tryExecute).1
  let fetchTask := (p.fetch_nix.core.tryExecute).2
  let trace := [OrchStep.spawnFetchExec] ++ condStep fetchStarted OrchStep.fetchExec
  let usersStep := p.create_users_and_group.core.tryExecute
  let trace := trace ++ condStep usersStep.1 OrchStep.usersExec
  match usersStep.2 with
  | Except.error e => (p, trace, some (BoxedError.createUsersAndGroup e))
  | Except.ok uCore =>
  let p := { p with create_users_and_group := { p.create_users_and_group with core := uCore } }
  let treeStep := p.create_nix_tree.core.tryExecute
  let trace := trace ++ condStep treeStep.1 OrchStep.treeExec
  match treeStep.2 with
  | Except.error e => (p, trace, some (BoxedError.createNixTree e))
  | Except.ok tCore =>
  let p := { p with create_nix_tree := { p.create_nix_tree with core := tCore } }
  let trace := trace ++ [OrchStep.joinFetchExec]
  match fetchTask with
  | Except.error e => (p, trace, some (BoxedError.fetchNix e))
  | Except.ok fCore =>
  let p := { p with fetch_nix := { p.fetch_nix with core := fCore } }
  let moveStep := p.move_unpacked_nix.core.tryExecute
  let trace := trace ++ condStep moveStep.1 OrchStep.moveExec
  match moveStep.2 with
  | Except.error e => (p, trace, some (BoxedError.moveUnpackedNix e))
  | Except.ok mCore =>
  ({ p with move_unpacked_nix := { p.move_unpacked_nix with core := mCore } }, trace, none)

/-- `ProvisionNix::revert` (lines 122-151).  The background tokio task runs
`try_revert` on a clone of the fetch child (underlying invocation recorded
at spawn time).  Then `create_users_and_group.try_revert()` and
`create_nix_tree.try_revert()`: on the first failure the code calls
`fetch_nix_handle.abort()` and returns that sibling's error.  Otherwise it
joins (`*fetch_nix = handle.await??`) and finally calls
`move_unpacked_nix.revert()` directly (not `try_revert`), so the move child
is always invoked on this path regardless of its state. -/
def ProvisionNix.revert (p : ProvisionNix) :
    ProvisionNix × List OrchStep × Option BoxedError :=
  let fetchStarted := (p.fetch_nix.core.tryRevert).1
  let fetchTask := (p.fetch_nix.core.tryRevert).2
  let trace := [OrchStep.spawnFetchRevert] ++ condStep fetchStarted OrchStep.fetchRevert
  let usersStep := p.create_users_and_group.core.tryRevert
  let trace := trace ++ condStep usersStep.1 OrchStep.usersRevert
  match usersStep.2 with
  | Except.error e => (p, trace ++ [OrchStep.abortFetch], some (BoxedError.createUsersAndGroup e))
  | Except.ok uCore =>
  let p := { p with create_users_and_group := { p.create_users_and_group with core := uCore } }
  let treeStep := p.create_nix_tree.core.tryRevert
  let trace := trace ++ condStep treeStep.1 OrchStep.treeRevert
  match treeStep.2 with
  | Except.error e => (p, trace ++ [OrchStep.abortFetch], some (BoxedError.createNixTree e))
  | Except.ok tCore =>
  let p := { p with create_nix_tree := { p.create_nix_tree with core := tCore } }
  let trace := trace ++ [OrchStep.joinFetchRevert]
  match fetchTask with
  | Except.error e => (p, trace, some (BoxedError.fetchNix e))
  | Except.ok fCore =>
  let p := { p with fetch_nix := { p.fetch_nix with core := fCore } }
  let trace := trace ++ [OrchStep.moveRevert]
  match p.move_unpacked_nix.core.revert with
  | Except.error e => (p, trace, some (BoxedError.moveUnpackedNix e))
  | Except.ok mCore =>
  ({ p with move_unpacked_nix := { p.move_unpacked_nix with core := mCore } }, trace, none)

/-- `ProvisionNix::execute_description` (lines 60-76): append each child's
execute descriptions to a buffer in declared order. -/
def ProvisionNix.execute_description (p : ProvisionNix) : List ActionDescription :=
  let buf : List ActionDescription := []
  let buf := buf ++ p.fetch_nix.core.execute_description
  let buf := buf ++ p.create_users_and_group.core.execute_description
  let buf := buf ++ p.create_nix_tree.core.execute_description
  let buf := buf ++ p.move_unpacked_nix.core.execute_description
  buf

/-- `ProvisionNix::revert_description` (lines 104-119): append each child's
revert descriptions to a buffer in the reverse of the declared order. -/
def ProvisionNix.revert_description (p : ProvisionNix) : List ActionDescription :=
  let buf : List ActionDescription := []
  let buf := buf ++ p.move_unpacked_nix.core.revert_description
  let buf := buf ++ p.create_nix_tree.core.revert_description
  let buf := buf ++ p.create_users_and_group.core.revert_description
  let buf := buf ++ p.fetch_nix.core.revert_description
  buf

/-- The children's execute descriptions in declared order, as a list of
lists (for stating the concatenation property). -/
def ProvisionNix.childExecuteDescriptions (p : ProvisionNix) : List (List ActionDescription) :=
  [p.fetch_nix.core.execute_description,
   p.create_users_and_group.core.execute_description,
   p.create_nix_tree.core.execute_description,
   p.move_unpacked_nix.core.execute_description]

/-- The children's revert descriptions in declared order, as a list of
lists (for stating the reverse-concatenation property). -/
def ProvisionNix.childRevertDescriptions (p : ProvisionNix) : List (List ActionDescription) :=
  [p.fetch_nix.core.revert_description,
   p.create_users_and_group.core.revert_description,
   p.create_nix_tree.core.revert_description,
   p.move_unpacked_nix.core.revert_description]

/-- `ProvisionNix::action_state` (lines 153-155). -/
def ProvisionNix.get_action_state (p : ProvisionNix) : ActionState :=
  p.action_state

/-- `ProvisionNix::set_action_state` (lines 157-159). -/
def ProvisionNix.set_action_state (p : ProvisionNix) (s : ActionState) : ProvisionNix :=
  { p with action_state := s }

/-- Modelled from the spec: the driver wrapper's `try_execute` applied to
the composite (`ActionImplementation` is outside the excerpt): skip if the
composite is already `Completed`, otherwise run `ProvisionNix.execute` and
on success set the composite's state to `Completed` (spec sections 4.1 and
4.2). -/
def ProvisionNix.try_execute (p : ProvisionNix) :
    ProvisionNix × List OrchStep × Option BoxedError :=
  if p.action_state = ActionState.Completed then (p, [], none)
  else
    match p.execute with
    | (q, tr, none) => (q.set_action_state ActionState.Completed, tr, none)
    | (q, tr, some e) => (q, tr, some e)

/-- Modelled from the spec: the driver wrapper's `try_revert` applied to
the composite: skip if the composite is already `Uncompleted`, otherwise
run `ProvisionNix.revert` and on success set the composite's state to
`Uncompleted` (spec sections 4.1 and 4.2). -/
def ProvisionNix.try_revert (p : ProvisionNix) :
    ProvisionNix × List OrchStep × Option BoxedError :=
  if p.action_state = ActionState.Uncompleted then (p, [], none)
  else
    match p.revert with
    | (q, tr, none) => (q.set_action_state ActionState.Uncompleted, tr, none)
    | (q, tr, some e) => (q, tr, some e)

/-- Whether `ProvisionNix::plan` on these settings returned an error wrapped
in the composite's own `ProvisionNixError` kind. -/
def ProvisionNix.planErrWrapped (settings : CommonSettings) : Bool :=
  match ProvisionNix.plan settings with
  | Except.error (BoxedError.provisionNix _) => true
  | _ => false

/-! Embedding of `src/cli/subcommand/export.rs`.  The ambient process
environment and the filesystem queries the code performs (`is_symlink`,
`is_file`) are passed in explicitly as a `Sys` value; paths are modelled as
strings with `/`-joining; `env::split_paths`/`env::join_paths` split and
join on `:` (join fails when a component contains `:`). -/

/-- The `Error` enum of `export.rs` (lines 14-30). -/
inductive ExportError
| HomeNotSet
| AlreadyRun
| InvalidXdgDataDirs (paths : List String)
| InvalidPathDirs (paths : List String)
| InvalidManPathDirs (paths : List String)
deriving DecidableEq, Repr

/-- The ambient system: environment variables as an association list, plus
the sets of paths that are symlinks and regular files. -/
structure Sys where
  env : List (String × String)
  symlinks : List String
  files : List String
deriving DecidableEq, Repr

/-- `std::env::var_os(key)` over the modelled environment. -/
def var_os (sys : Sys) (key : String) : Option String :=
  (sys.env.find? (fun p => p.1 == key)).map Prod.snd

/-- `nonempty_var_os` (lines 118-120): `env::var_os(key)` filtered to drop
empty values. -/
def nonempty_var_os (sys : Sys) (key : String) : Option String :=
  (var_os sys key).filter (fun val => !val.isEmpty)

/-- `PathBuf::join` for the relative components used here. -/
def pathJoin (a : String) (b : String) : String :=
  a ++ "/" ++ b

/-- `env::split_paths`: split on `:`. -/
def splitPaths (s : String) : List String :=
  s.splitOn ":"

/-- `env::join_paths`: fails when a component contains `:`, otherwise joins
with `:` (the containment check is over the string's character list). -/
def joinPaths (paths : List String) : Option String :=
  if paths.any (fun p => p.data.contains ':') then none
  else some (String.intercalate ":" paths)

/-- `env_path` (lines 122-130): absent variable gives `none`, an empty value
gives `some []`, otherwise the split paths. -/
def env_path (sys : Sys) (key : String) : Option (List String) :=
  match var_os sys key with
  | none => none
  | some path =>
    if path.isEmpty then some []
    else some (splitPaths path)

/-- `LOCAL_STATE_DIR` (line 12). -/
def LOCAL_STATE_DIR : String := "/nix/var"

/-- The SSL certificate candidate locations (lines 206-219): four
well-known paths, then for each profile in reverse order the two in-profile
candidates. -/
def sslCandidates (nix_profiles : List String) : List String :=
  [ "/etc/ssl/certs/ca-certificates.crt",
    "/etc/ssl/ca-bundle.pem",
    "/etc/ssl/certs/ca-bundle.crt",
    "/etc/pki/tls/certs/ca-bundle.crt" ] ++
  (nix_profiles.reverse.map (fun profile =>
    [pathJoin profile "etc/ssl/certs/ca-bundle.crt",
     pathJoin profile "etc/ca-bundle.crt"])).flatten

/-- Helper: look a key up in the computed environment map. -/
def lookupEnv (envs : List (String × String)) (key : String) : Option String :=
  (envs.find? (fun p => p.1 == key)).map Prod.snd

/-- `calculate_environment` (lines 132-270).  The `HashMap` is modelled as
an association list in insertion order (every inserted key is distinct).
Branch for branch: the `__ETC_PROFILE_NIX_SOURCED == "1"` short-circuit to
`AlreadyRun`; the `HOME` check to `HomeNotSet`; the `nix_link` choice
between the XDG location (when it is a symlink) and the legacy location;
`NIX_PROFILES` joined with spaces; `XDG_DATA_DIRS` (defaulting when the
variable is absent) extended with the two share dirs; the
`NIX_SSL_CERT_FILE` candidate scan when that variable is empty or unset;
`PATH` with the two bin dirs prepended; and `MANPATH` only when that
variable is set. -/
def calculate_environment (sys : Sys) : Except ExportError (List (String × String)) :=
  if nonempty_var_os sys "__ETC_PROFILE_NIX_SOURCED" = some "1" then
    Except.error ExportError.AlreadyRun
  else
  match nonempty_var_os sys "HOME" with
  | none => Except.error ExportError.HomeNotSet
  | some home =>
  let envs : List (String × String) := [("__ETC_PROFILE_NIX_SOURCED", "1")]
  let legacy_location := pathJoin home ".nix-profile"
  let xdg_location :=
    pathJoin
      (match nonempty_var_os sys "XDG_STATE_HOME" with
       | some x => x
       | none => pathJoin home ".local/state")
      "nix/profile"
  let nix_link := if sys.symlinks.contains xdg_location then xdg_location else legacy_location
  let nix_profiles := [pathJoin LOCAL_STATE_DIR "nix/profiles/default", nix_link]
  let envs := envs ++ [("NIX_PROFILES", String.intercalate " " nix_profiles)]
  let xdg_data_dirs :=
    (match env_path sys "XDG_DATA_DIRS" with
     | some ds => ds
     | none => ["/usr/local/share", "/usr/share"]) ++
    [pathJoin nix_link "share", pathJoin LOCAL_STATE_DIR "nix/profiles/default/share"]
  match joinPaths xdg_data_dirs with
  | none => Except.error (ExportError.InvalidXdgDataDirs xdg_data_dirs)
  | some xdgDirs =>
  let envs := envs ++ [("XDG_DATA_DIRS", xdgDirs)]
  let envs :=
    if nonempty_var_os sys "NIX_SSL_CERT_FILE" = none then
      match (sslCandidates nix_profiles).find? (fun path => sys.files.contains path) with
      | some cert => envs ++ [("NIX_SSL_CERT_FILE", cert)]
      | none => envs
    else envs
  let path :=
    [pathJoin nix_link "bin", pathJoin LOCAL_STATE_DIR "nix/profiles/default/bin"] ++
    (match env_path sys "PATH" with
     | some old => old
     | none => [])
  match joinPaths path with
  | none => Except.error (ExportError.InvalidPathDirs path)
  | some pathDirs =>
  let envs := envs ++ [("PATH", pathDirs)]
  match env_path sys "MANPATH" with
  | none => Except.ok envs
  | some old =>
    let manpath :=
      [pathJoin nix_link "share/man", pathJoin LOCAL_STATE_DIR "nix/profiles/default/share/man"] ++
      old
    match joinPaths manpath with
    | none => Except.error (ExportError.InvalidManPathDirs manpath)
    | some manDirs => Except.ok (envs ++ [("MANPATH", manDirs)])

/-- An exit code, as `Export::execute` returns it. -/
inductive ExitCodeModel
| SUCCESS
| FAILURE
deriving DecidableEq, Repr

/-- Modelled from the spec: the emission path of `Export::execute` on
`Ok(env)` (variable-name checking and shell escaping live in the external
`export` module, outside the excerpt); abstracted as a successful emission
of the environment.  The boolean records that environment output was
emitted. -/
def emitEnvironment (_envs : List (String × String)) :
    Except Unit (ExitCodeModel × Bool) :=
  Except.ok (ExitCodeModel.SUCCESS, true)

/-- `Export::execute` (lines 82-95) in the `sample_output: None` case:
match on `calculate_environment()`; `Err(AlreadyRun)` returns
`Ok(ExitCode::SUCCESS)` before any output; any other error returns
`Ok(ExitCode::FAILURE)` before any output (never `Err`); `Ok(env)`
continues to the emission path.  The boolean in the result records whether
environment output was emitted. -/
def exportExecuteNoSample (sys : Sys) : Except Unit (ExitCodeModel × Bool) :=
  match calculate_environment sys with
  | Except.error ExportError.AlreadyRun => Except.ok (ExitCodeModel.SUCCESS, false)
  | Except.error _ => Except.ok (ExitCodeModel.FAILURE, false)
  | Except.ok env => emitEnvironment env

/-! Concrete sample values used by the closed instance theorems below. -/

/-- An `ActionCore` with the given state and oracle outcomes and empty
descriptions. -/
def mkCore (ε : Type) (st : ActionState) (eo ro : Option ε) : ActionCore ε :=
  { action_state := st
    execOutcome := eo
    revertOutcome := ro
    execute_description := []
    revert_description := [] }

/-- Sample settings with a well-formed package URL. -/
def sampleSettings : CommonSettings :=
  { nix_package_url := "https://example.org/runtime.tar.xz", usersPlanFail := none }

/-- Settings whose package URL fails the fetch child's plan validation. -/
def badSettings : CommonSettings :=
  { nix_package_url := "", usersPlanFail := none }

/-- A `ProvisionNix` with the given child cores, sample configuration and
the given composite state. -/
def mkProvision (fc : ActionCore FetchNixError) (uc : ActionCore CreateUsersAndGroupError)
    (tc : ActionCore CreateNixTreeError) (mc : ActionCore MoveUnpackedNixError)
    (st : ActionState) : ProvisionNix :=
  { fetch_nix := { url := "https://example.org/runtime.tar.xz",
                   dest := "/nix/temp-install-dir", core := fc }
    create_users_and_group := { settings := sampleSettings, core := uc }
    create_nix_tree := { core := tc }
    move_unpacked_nix := { src := "/nix/temp-install-dir", core := mc }
    action_state := st }

/-- A fully `Completed` composite whose users child's revert fails. -/
def revertFailSample : ProvisionNix :=
  mkProvision
    (mkCore FetchNixError ActionState.Completed none none)
    (mkCore CreateUsersAndGroupError ActionState.Completed none
      (some { msg := "users revert failed" }))
    (mkCore CreateNixTreeError ActionState.Completed none none)
    (mkCore MoveUnpackedNixError ActionState.Completed none none)
    ActionState.Completed

/-- A fresh composite whose users child's execute fails. -/
def execFailSample : ProvisionNix :=
  mkProvision
    (mkCore FetchNixError ActionState.Uncompleted none none)
    (mkCore CreateUsersAndGroupError ActionState.Uncompleted
      (some { msg := "users execute failed" }) none)
    (mkCore CreateNixTreeError ActionState.Uncompleted none none)
    (mkCore MoveUnpackedNixError ActionState.Uncompleted none none)
    ActionState.Uncompleted

/-- A fresh composite on which every child operation succeeds. -/
def cleanSample : ProvisionNix :=
  mkProvision
    (mkCore FetchNixError ActionState.Uncompleted none none)
    (mkCore CreateUsersAndGroupError ActionState.Uncompleted none none)
    (mkCore CreateNixTreeError ActionState.Uncompleted none none)
    (mkCore MoveUnpackedNixError ActionState.Uncompleted none none)
    ActionState.Uncompleted

/-- The composite after a successful driver `try_execute` of `cleanSample`. -/
def afterExecSample : ProvisionNix :=
  (cleanSample.try_execute).1

/-- The composite after a successful driver `try_revert` of
`afterExecSample`. -/
def afterRevertSample : ProvisionNix :=
  (afterExecSample.try_revert).1

/-- A mixed state as left by a partial execute: fetch and users `Completed`,
tree and move `Uncompleted`; every child revert succeeds when invoked. -/
def mixedSample : ProvisionNix :=
  mkProvision
    (mkCore FetchNixError ActionState.Completed none none)
    (mkCore CreateUsersAndGroupError ActionState.Completed none none)
    (mkCore CreateNixTreeError ActionState.Uncompleted none none)
    (mkCore MoveUnpackedNixError ActionState.Uncompleted none none)
    ActionState.Completed

/-- The composite `ProvisionNix.plan` produces on `sampleSettings`. -/
def plannedSample : ProvisionNix :=
  { fetch_nix := { url := "https://example.org/runtime.tar.xz",
                   dest := "/nix/temp-install-dir",
                   core := ActionCore.planned FetchNixError }
    create_users_and_group := { settings := sampleSettings,
                                core := ActionCore.planned CreateUsersAndGroupError }
    create_nix_tree := { core := ActionCore.planned CreateNixTreeError }
    move_unpacked_nix := { src := "/nix/temp-install-dir",
                           core := ActionCore.planned MoveUnpackedNixError }
    action_state := ActionState.Uncompleted }

/-- An ambient system where the profile script already ran. -/
def alreadyRunSys : Sys :=
  { env := [("__ETC_PROFILE_NIX_SOURCED", "1")], symlinks := [], files := [] }

/-- An ambient system with no `HOME` set. -/
def noHomeSys : Sys :=
  { env := [], symlinks := [], files := [] }

/-- A plain ambient system: only `HOME` is set; no symlinks or candidate
certificate files exist. -/
def plainSys : Sys :=
  { env := [("HOME", "/h")], symlinks := [], files := [] }

/-- The environment `calculate_environment` computes on `plainSys`. -/
def plainEnvs : List (String × String) :=
  [("__ETC_PROFILE_NIX_SOURCED", "1"),
   ("NIX_PROFILES", "/nix/var/nix/profiles/default /h/.nix-profile"),
   ("XDG_DATA_DIRS",
    "/usr/local/share:/usr/share:/h/.nix-profile/share:/nix/var/nix/profiles/default/share"),
   ("PATH", "/h/.nix-profile/bin:/nix/var/nix/profiles/default/bin")]

/-! Helper lemmas. -/

/-- Membership in a conditional trace contribution. -/
theorem mem_condStep (t : OrchStep) (b : Bool) (s : OrchStep) :
    t ∈ condStep b s ↔ b = true ∧ t = s := by
  unfold condStep
  cases b <;> simp

/-- `env_path` is `none` exactly when the variable is absent. -/
theorem env_path_eq_none_iff (sys : Sys) (key : String) :
    env_path sys key = none ↔ var_os sys key = none := by
  cases h : var_os sys key with
  | none => simp [env_path, h]
  | some path =>
    simp only [env_path, h]
    split <;> simp

/-- The last element of a list ending in an explicit singleton. -/
theorem getLast?_append_last {α : Type} (l : List α) (a : α) :
    (l ++ [a]).getLast? = some a := by
  rw [List.getLast?_append_cons]
  rfl

/-- Appending on the left preserves a known last element. -/
theorem getLast?_append_keep {α : Type} (l₁ l₂ : List α) (a : α)
    (h : l₂.getLast? = some a) : (l₁ ++ l₂).getLast? = some a := by
  rw [List.getLast?_append_of_ne_nil _ (by intro he; rw [he] at h; simp at h)]
  exact h

/-- Consing on the left preserves a known last element. -/
theorem getLast?_cons_keep {α : Type} (x : α) (l : List α) (a : α)
    (h : l.getLast? = some a) : (x :: l).getLast? = some a := by
  cases l with
  | nil => simp at h
  | cons y ys => rw [List.getLast?_cons_cons]; exact h

/-! Claim theorems. -/

/-- Claim C2: `execute_description()` is the concatenation of the four
children's execute descriptions in declared order (fetch, users, tree,
move), and `revert_description()` is the concatenation of the children's
revert descriptions in the exact reverse order. -/
theorem provision_nix_description_concat (p : ProvisionNix) :
    p.execute_description = p.childExecuteDescriptions.flatten
  ∧ p.revert_description = p.childRevertDescriptions.reverse.flatten := by
  constructor <;>
    simp [ProvisionNix.execute_description, ProvisionNix.revert_description,
      ProvisionNix.childExecuteDescriptions, ProvisionNix.childRevertDescriptions]

/-- Claim C4: a successful driver `try_execute` of the composite leaves its
`action_state` at `Completed`; a successful driver `try_revert` of a
`Completed` composite leaves its `action_state` at `Uncompleted`. -/
theorem provision_nix_state_invariant (p : ProvisionNix) :
    (∀ q tr, p.try_execute = (q, tr, none) → q.action_state = ActionState.Completed)
  ∧ (p.action_state = ActionState.Completed →
      ∀ q tr, p.try_revert = (q, tr, none) → q.action_state = ActionState.Uncompleted) := by
  constructor
  · intro q tr h
    unfold ProvisionNix.try_execute at h
    split at h
    · rename_i hc
      simp only [Prod.mk.injEq] at h
      obtain ⟨rfl, -, -⟩ := h
      exact hc
    · split at h
      · simp only [Prod.mk.injEq] at h
        obtain ⟨rfl, -, -⟩ := h
        simp [ProvisionNix.set_action_state]
      · simp only [Prod.mk.injEq] at h
        obtain ⟨-, -, h3⟩ := h
        simp at h3
  · intro hc q tr h
    unfold ProvisionNix.try_revert at h
    rw [if_neg (by simp [hc])] at h
    split at h
    · simp only [Prod.mk.injEq] at h
      obtain ⟨rfl, -, -⟩ := h
      simp [ProvisionNix.set_action_state]
    · simp only [Prod.mk.injEq] at h
      obtain ⟨-, -, h3⟩ := h
      simp at h3

/-- Witness for claim C4 at a concrete composite: executing `cleanSample`
succeeds and leaves it `Completed`; reverting the result succeeds and
leaves it `Uncompleted`. -/
theorem provision_nix_state_invariant_witness :
    cleanSample.try_execute.2.2 = none
  ∧ afterExecSample.action_state = ActionState.Completed
  ∧ afterExecSample.try_revert.2.2 = none
  ∧ afterRevertSample.action_state = ActionState.Uncompleted :=
  ⟨by decide,
   (provision_nix_state_invariant cleanSample).1 afterExecSample
     cleanSample.try_execute.2.1 (by decide),
   by decide,
   (provision_nix_state_invariant afterExecSample).2 (by decide) afterRevertSample
     afterExecSample.try_revert.2.1 (by decide)⟩

/-- Claim C1: during `ProvisionNix::revert`, if the users child's
`try_revert` fails, or the users child's `try_revert` succeeds and the tree
child's `try_revert` fails, then the background fetch-revert task is
aborted (the abort is the last event before returning) and the value
returned is exactly that sibling's boxed error — in particular not a
join/cancellation error. -/
theorem provision_nix_revert_aborts_on_sibling_failure (p : ProvisionNix) :
    (∀ e, (p.create_users_and_group.core.tryRevert).2 = Except.error e →
        p.revert.2.2 = some (BoxedError.createUsersAndGroup e)
      ∧ p.revert.2.1.getLast? = some OrchStep.abortFetch
      ∧ p.revert.2.2 ≠ some BoxedError.join)
  ∧ (∀ e u, (p.create_users_and_group.core.tryRevert).2 = Except.ok u →
        (p.create_nix_tree.core.tryRevert).2 = Except.error e →
        p.revert.2.2 = some (BoxedError.createNixTree e)
      ∧ p.revert.2.1.getLast? = some OrchStep.abortFetch
      ∧ p.revert.2.2 ≠ some BoxedError.join) := by
  constructor
  · intro e h
    simp [ProvisionNix.revert, h]
    apply getLast?_cons_keep
    apply getLast?_append_keep
    exact getLast?_append_last _ _
  · intro e u h1 h2
    simp [ProvisionNix.revert, h1, h2]
    apply getLast?_cons_keep
    apply getLast?_append_keep
    apply getLast?_append_keep
    exact getLast?_append_last _ _

/-- Witness for claim C1 at a concrete composite: `revertFailSample`'s
users child fails to revert, the abort is the final trace event, and the
sibling's error is returned. -/
theorem provision_nix_revert_aborts_on_sibling_failure_witness :
    ((revertFailSample.create_users_and_group.core.tryRevert).2
        = Except.error { msg := "users revert failed" })
  ∧ (revertFailSample.revert.2.2
        = some (BoxedError.createUsersAndGroup { msg := "users revert failed" })
    ∧ revertFailSample.revert.2.1.getLast? = some OrchStep.abortFetch
    ∧ revertFailSample.revert.2.2 ≠ some BoxedError.join) :=
  ⟨by decide,
   (provision_nix_revert_aborts_on_sibling_failure revertFailSample).1
     { msg := "users revert failed" } (by decide)⟩

/-- Claim C3: if the users child's `try_execute` fails during
`ProvisionNix::execute`, the composite's execute returns exactly that
error, the tree child's and the move (relocation) child's underlying
executes are never invoked, and both children are left untouched (in
particular an `Uncompleted` child stays `Uncompleted`). -/
theorem provision_nix_execute_stops_after_users_failure (p : ProvisionNix)
    (e : CreateUsersAndGroupError)
    (h : (p.create_users_and_group.core.tryExecute).2 = Except.error e) :
    p.execute.2.2 = some (BoxedError.createUsersAndGroup e)
  ∧ OrchStep.treeExec ∉ p.execute.2.1
  ∧ OrchStep.moveExec ∉ p.execute.2.1
  ∧ (p.execute.1).create_nix_tree = p.create_nix_tree
  ∧ (p.execute.1).move_unpacked_nix = p.move_unpacked_nix := by
  simp [ProvisionNix.execute, h, mem_condStep]

/-- Witness for claim C3 at a concrete composite: `execFailSample`'s users
child fails to execute; the composite returns that error and neither the
tree child nor the move child runs. -/
theorem provision_nix_execute_stops_after_users_failure_witness :
    ((execFailSample.create_users_and_group.core.tryExecute).2
        = Except.error { msg := "users execute failed" })
  ∧ (execFailSample.execute.2.2
        = some (BoxedError.createUsersAndGroup { msg := "users execute failed" })
    ∧ OrchStep.treeExec ∉ execFailSample.execute.2.1
    ∧ OrchStep.moveExec ∉ execFailSample.execute.2.1
    ∧ (execFailSample.execute.1).create_nix_tree = execFailSample.create_nix_tree
    ∧ (execFailSample.execute.1).move_unpacked_nix = execFailSample.move_unpacked_nix) :=
  ⟨by decide,
   provision_nix_execute_stops_after_users_failure execFailSample
     { msg := "users execute failed" } (by decide)⟩

/-- Claim C8: `ProvisionNix::execute` never invokes `abort()` on the
background fetch task — in particular, when the users child (or, the users
child succeeding, the tree child) fails while the background fetch is
running, the sibling's error is returned without aborting the task,
preserving the asymmetry with the revert path. -/
theorem provision_nix_execute_never_aborts (p : ProvisionNix) :
    OrchStep.abortFetch ∉ p.execute.2.1
  ∧ (∀ e, (p.create_users_and_group.core.tryExecute).2 = Except.error e →
        p.execute.2.2 = some (BoxedError.createUsersAndGroup e))
  ∧ (∀ e u, (p.create_users_and_group.core.tryExecute).2 = Except.ok u →
        (p.create_nix_tree.core.tryExecute).2 = Except.error e →
        p.execute.2.2 = some (BoxedError.createNixTree e)) := by
  refine ⟨?_, ?_, ?_⟩
  · cases hu : (p.create_users_and_group.core.tryExecute).2 with
    | error e => simp [ProvisionNix.execute, hu, mem_condStep]
    | ok u =>
      cases ht : (p.create_nix_tree.core.tryExecute).2 with
      | error e => simp [ProvisionNix.execute, hu, ht, mem_condStep]
      | ok t =>
        cases hf : (p.fetch_nix.core.tryExecute).2 with
        | error e => simp [ProvisionNix.execute, hu, ht, hf, mem_condStep]
        | ok f =>
          cases hm : (p.move_unpacked_nix.core.tryExecute).2 with
          | error e => simp [ProvisionNix.execute, hu, ht, hf, hm, mem_condStep]
          | ok m => simp [ProvisionNix.execute, hu, ht, hf, hm, mem_condStep]
  · intro e hu
    simp [ProvisionNix.execute, hu]
  · intro e u hu ht
    simp [ProvisionNix.execute, hu, ht]

/-- Witness for claim C8 at a concrete composite: `execFailSample`'s users
child fails while the background fetch is running; no abort happens and the
sibling's error is returned. -/
theorem provision_nix_execute_never_aborts_witness :
    ((execFailSample.create_users_and_group.core.tryExecute).2
        = Except.error { msg := "users execute failed" })
  ∧ OrchStep.abortFetch ∉ execFailSample.execute.2.1
  ∧ execFailSample.execute.2.2
        = some (BoxedError.createUsersAndGroup { msg := "users execute failed" }) :=
  ⟨by decide,
   (provision_nix_execute_never_aborts execFailSample).1,
   (provision_nix_execute_never_aborts execFailSample).2.1
     { msg := "users execute failed" } (by decide)⟩

/-- Counterexample to claim C5 as stated: on the mixed state `mixedSample`
(fetch and users `Completed`, tree and move `Uncompleted`), `revert()`
invokes the move child's underlying revert even though that child's state
is `Uncompleted` — the move child is not skipped. -/
theorem provision_nix_revert_move_not_skipped_cex :
    mixedSample.move_unpacked_nix.core.action_state = ActionState.Uncompleted
  ∧ OrchStep.moveRevert ∈ mixedSample.revert.2.1 := by
  decide

/-- Claim C5 (amended): on a mixed child state, `revert()` skips the fetch,
users and tree children when their state is `Uncompleted` (they go through
`try_revert`), but invokes the move child's `revert()` unconditionally,
regardless of its state; the revert returns without error provided every
child revert that runs succeeds — including the move child's, which runs
even from `Uncompleted`. -/
theorem provision_nix_revert_skip_policy (p : ProvisionNix)
    (hf : p.fetch_nix.core.action_state = ActionState.Uncompleted
        ∨ p.fetch_nix.core.revertOutcome = none)
    (hu : p.create_users_and_group.core.action_state = ActionState.Uncompleted
        ∨ p.create_users_and_group.core.revertOutcome = none)
    (ht : p.create_nix_tree.core.action_state = ActionState.Uncompleted
        ∨ p.create_nix_tree.core.revertOutcome = none)
    (hm : p.move_unpacked_nix.core.revertOutcome = none) :
    p.revert.2.2 = none
  ∧ OrchStep.moveRevert ∈ p.revert.2.1
  ∧ (p.fetch_nix.core.action_state = ActionState.Uncompleted →
      OrchStep.fetchRevert ∉ p.revert.2.1)
  ∧ (p.create_users_and_group.core.action_state = ActionState.Uncompleted →
      OrchStep.usersRevert ∉ p.revert.2.1)
  ∧ (p.create_nix_tree.core.action_state = ActionState.Uncompleted →
      OrchStep.treeRevert ∉ p.revert.2.1) := by
  by_cases hfu : p.fetch_nix.core.action_state = ActionState.Uncompleted <;>
  by_cases huu : p.create_users_and_group.core.action_state = ActionState.Uncompleted <;>
  by_cases htu : p.create_nix_tree.core.action_state = ActionState.Uncompleted <;>
  · try have hf2 : p.fetch_nix.core.revertOutcome = none := by tauto
    try have hu2 : p.create_users_and_group.core.revertOutcome = none := by tauto
    try have ht2 : p.create_nix_tree.core.revertOutcome = none := by tauto
    simp [ProvisionNix.revert, ActionCore.tryRevert, ActionCore.revert,
      hfu, huu, htu, hm, mem_condStep, *]

/-- Witness for the amended claim C5 at the concrete mixed state
`mixedSample`: revert succeeds, the `Uncompleted` tree child is skipped,
and the move child's revert is invoked. -/
theorem provision_nix_revert_skip_policy_witness :
    mixedSample.revert.2.2 = none
  ∧ OrchStep.moveRevert ∈ mixedSample.revert.2.1
  ∧ OrchStep.treeRevert ∉ mixedSample.revert.2.1 :=
  ⟨(provision_nix_revert_skip_policy mixedSample (Or.inr (by decide))
      (Or.inr (by decide)) (Or.inl (by decide)) (by decide)).1,
   (provision_nix_revert_skip_policy mixedSample (Or.inr (by decide))
      (Or.inr (by decide)) (Or.inl (by decide)) (by decide)).2.1,
   (provision_nix_revert_skip_policy mixedSample (Or.inr (by decide))
      (Or.inr (by decide)) (Or.inl (by decide)) (by decide)).2.2.2.2 (by decide)⟩

/-- Claim C6: whenever `ProvisionNix::plan` succeeds, the composite starts
`Uncompleted`, its fetch child carries the settings' package URL and the
destination `/nix/temp-install-dir`, and its move child carries the same
source path `/nix/temp-install-dir`. -/
theorem provision_nix_plan_config (settings : CommonSettings) (p : ProvisionNix)
    (h : ProvisionNix.plan settings = Except.ok p) :
    p.action_state = ActionState.Uncompleted
  ∧ p.fetch_nix.url = settings.nix_package_url
  ∧ p.fetch_nix.dest = "/nix/temp-install-dir"
  ∧ p.move_unpacked_nix.src = "/nix/temp-install-dir" := by
  unfold ProvisionNix.plan at h
  cases hf : FetchNix.plan settings.nix_package_url "/nix/temp-install-dir" with
  | error e => rw [hf] at h; simp at h
  | ok f =>
    rw [hf] at h
    cases hu : CreateUsersAndGroup.plan settings with
    | error e => rw [hu] at h; simp at h
    | ok u =>
      rw [hu] at h
      simp only [CreateNixTree.plan, MoveUnpackedNix.plan] at h
      rw [Except.ok.injEq] at h
      subst h
      unfold FetchNix.plan at hf
      split at hf
      · simp at hf
      · rw [Except.ok.injEq] at hf
        subst hf
        simp

/-- Witness for claim C6: plan on `sampleSettings` yields `plannedSample`
with the configured URL and paths. -/
theorem provision_nix_plan_config_witness :
    ProvisionNix.plan sampleSettings = Except.ok plannedSample
  ∧ (plannedSample.action_state = ActionState.Uncompleted
    ∧ plannedSample.fetch_nix.url = sampleSettings.nix_package_url
    ∧ plannedSample.fetch_nix.dest = "/nix/temp-install-dir"
    ∧ plannedSample.move_unpacked_nix.src = "/nix/temp-install-dir") :=
  ⟨by decide, provision_nix_plan_config sampleSettings plannedSample (by decide)⟩

/-- Counterexample to claim C7 as stated: on `badSettings` the fetch
child's plan fails, and `ProvisionNix::plan` returns the child's boxed
error directly — not an error wrapped into a `ProvisionNixError` variant. -/
theorem provision_nix_plan_unwrapped_cex :
    ProvisionNix.plan badSettings
      = Except.error (BoxedError.fetchNix { msg := "fetch url is not well-formed" })
  ∧ ProvisionNix.planErrWrapped badSettings = false := by
  decide

/-- Claim C7 (amended): when a child's plan fails inside
`ProvisionNix::plan`, the composite propagates the child's error boxed
(type-erased) as-is — the original child error is preserved because it is
itself the returned error — and does not wrap it into a `ProvisionNixError`
variant. -/
theorem provision_nix_plan_propagates_boxed (settings : CommonSettings) :
    (∀ e, FetchNix.plan settings.nix_package_url "/nix/temp-install-dir"
            = Except.error e →
        ProvisionNix.plan settings = Except.error (BoxedError.fetchNix e)
      ∧ ProvisionNix.planErrWrapped settings = false)
  ∧ (∀ f e, FetchNix.plan settings.nix_package_url "/nix/temp-install-dir"
            = Except.ok f →
        CreateUsersAndGroup.plan settings = Except.error e →
        ProvisionNix.plan settings = Except.error (BoxedError.createUsersAndGroup e)
      ∧ ProvisionNix.planErrWrapped settings = false) := by
  constructor
  · intro e h
    have hp : ProvisionNix.plan settings = Except.error (BoxedError.fetchNix e) := by
      unfold ProvisionNix.plan
      rw [h]
    exact ⟨hp, by simp [ProvisionNix.planErrWrapped, hp]⟩
  · intro f e hf he
    have hp : ProvisionNix.plan settings
        = Except.error (BoxedError.createUsersAndGroup e) := by
      unfold ProvisionNix.plan
      rw [hf, he]
    exact ⟨hp, by simp [ProvisionNix.planErrWrapped, hp]⟩

/-- Witness for the amended claim C7 at `badSettings`: the fetch child's
plan fails and the composite returns that error boxed, unwrapped. -/
theorem provision_nix_plan_propagates_boxed_witness :
    (FetchNix.plan badSettings.nix_package_url "/nix/temp-install-dir"
        = Except.error { msg := "fetch url is not well-formed" })
  ∧ (ProvisionNix.plan badSettings
        = Except.error (BoxedError.fetchNix { msg := "fetch url is not well-formed" })
    ∧ ProvisionNix.planErrWrapped badSettings = false) :=
  ⟨by decide,
   (provision_nix_plan_propagates_boxed badSettings).1
     { msg := "fetch url is not well-formed" } (by decide)⟩

/-- Claim C9: when `__ETC_PROFILE_NIX_SOURCED` is already `"1"`,
`calculate_environment` returns the `AlreadyRun` error and the Export
subcommand (computing the environment, no sample file) exits successfully
without emitting any environment output; every other
`calculate_environment` error yields a failure exit code, again without
emitting output and without an `Err` result. -/
theorem export_execute_error_codes (sys : Sys) :
    (nonempty_var_os sys "__ETC_PROFILE_NIX_SOURCED" = some "1" →
        calculate_environment sys = Except.error ExportError.AlreadyRun
      ∧ exportExecuteNoSample sys = Except.ok (ExitCodeModel.SUCCESS, false))
  ∧ (∀ e, calculate_environment sys = Except.error e → e ≠ ExportError.AlreadyRun →
        exportExecuteNoSample sys = Except.ok (ExitCodeModel.FAILURE, false)) := by
  constructor
  · intro h
    have hc : calculate_environment sys = Except.error ExportError.AlreadyRun := by
      unfold calculate_environment
      rw [if_pos h]
    refine ⟨hc, ?_⟩
    unfold exportExecuteNoSample
    rw [hc]
  · intro e h hne
    unfold exportExecuteNoSample
    rw [h]
    cases e <;> simp_all

/-- Witness for claim C9 at concrete systems: on `alreadyRunSys` the export
exits successfully with no output; on `noHomeSys` (where the error is
`HomeNotSet`) it exits with a failure code, still with no output and no
`Err`. -/
theorem export_execute_error_codes_witness :
    (nonempty_var_os alreadyRunSys "__ETC_PROFILE_NIX_SOURCED" = some "1"
    ∧ calculate_environment alreadyRunSys = Except.error ExportError.AlreadyRun
    ∧ exportExecuteNoSample alreadyRunSys = Except.ok (ExitCodeModel.SUCCESS, false))
  ∧ (calculate_environment noHomeSys = Except.error ExportError.HomeNotSet
    ∧ exportExecuteNoSample noHomeSys = Except.ok (ExitCodeModel.FAILURE, false)) :=
  ⟨⟨by decide,
    ((export_execute_error_codes alreadyRunSys).1 (by decide)).1,
    ((export_execute_error_codes alreadyRunSys).1 (by decide)).2⟩,
   ⟨by decide,
    (export_execute_error_codes noHomeSys).2 ExportError.HomeNotSet (by decide)
      (by decide)⟩⟩

/-- Claim C10: whenever `calculate_environment` succeeds, the computed
environment contains `__ETC_PROFILE_NIX_SOURCED` with value `"1"` and the
keys `NIX_PROFILES`, `XDG_DATA_DIRS` and `PATH`, and it contains `MANPATH`
exactly when the ambient `MANPATH` variable is set (empty included); an
environment variable holding the empty string is treated as unset by
`nonempty_var_os` (the accessor used for the `__ETC_PROFILE_NIX_SOURCED`,
`HOME`, `XDG_STATE_HOME` and `NIX_SSL_CERT_FILE` checks) — in particular an
empty `HOME` yields the `HomeNotSet` error. -/
theorem calculate_environment_keys (sys : Sys) :
    (∀ k, var_os sys k = some "" → nonempty_var_os sys k = none)
  ∧ (nonempty_var_os sys "__ETC_PROFILE_NIX_SOURCED" ≠ some "1" →
      var_os sys "HOME" = some "" →
      calculate_environment sys = Except.error ExportError.HomeNotSet)
  ∧ (∀ envs, calculate_environment sys = Except.ok envs →
      lookupEnv envs "__ETC_PROFILE_NIX_SOURCED" = some "1"
    ∧ (lookupEnv envs "NIX_PROFILES").isSome = true
    ∧ (lookupEnv envs "XDG_DATA_DIRS").isSome = true
    ∧ (lookupEnv envs "PATH").isSome = true
    ∧ (lookupEnv envs "MANPATH").isSome = (var_os sys "MANPATH").isSome) := by
  refine ⟨?_, ?_, ?_⟩
  · intro k hk
    unfold nonempty_var_os
    rw [hk]
    rfl
  · intro hs hh
    have hn : nonempty_var_os sys "HOME" = none := by
      unfold nonempty_var_os
      rw [hh]
      rfl
    unfold calculate_environment
    rw [if_neg hs, hn]
  · intro envs h
    by_cases hs : nonempty_var_os sys "__ETC_PROFILE_NIX_SOURCED" = some "1"
    · unfold calculate_environment at h
      rw [if_pos hs] at h
      simp at h
    · unfold calculate_environment at h
      rw [if_neg hs] at h
      cases hh : nonempty_var_os sys "HOME" with
      | none => rw [hh] at h; simp at h
      | some home =>
        simp only [hh] at h
        repeat'
          (first
            | exact Except.noConfusion h
            | split at h)
        all_goals rw [Except.ok.injEq] at h
        all_goals subst h
        all_goals refine ⟨rfl, rfl, rfl, rfl, ?_⟩
        all_goals first
          | (have hep : env_path sys "MANPATH" = none := by assumption
             rw [(env_path_eq_none_iff sys "MANPATH").mp hep]
             rfl)
          | (obtain ⟨l, hep⟩ : ∃ l, env_path sys "MANPATH" = some l := ⟨_, by assumption⟩
             have hv : (var_os sys "MANPATH").isSome = true := by
               cases hvv : var_os sys "MANPATH" with
               | none =>
                 rw [(env_path_eq_none_iff sys "MANPATH").mpr hvv] at hep
                 simp at hep
               | some v => rfl
             rw [hv]
             rfl)

/-- Witness for claim C10 at the concrete system `plainSys` (only `HOME`
set): the computation succeeds with `plainEnvs`, which carries the required
keys, and `MANPATH` is absent on both sides. -/
theorem calculate_environment_keys_witness :
    calculate_environment plainSys = Except.ok plainEnvs
  ∧ (lookupEnv plainEnvs "__ETC_PROFILE_NIX_SOURCED" = some "1"
    ∧ (lookupEnv plainEnvs "NIX_PROFILES").isSome = true
    ∧ (lookupEnv plainEnvs "XDG_DATA_DIRS").isSome = true
    ∧ (lookupEnv plainEnvs "PATH").isSome = true
    ∧ (lookupEnv plainEnvs "MANPATH").isSome = (var_os plainSys "MANPATH").isSome) :=
  ⟨by decide, (calculate_environment_keys plainSys).2.2 plainEnvs (by decide)⟩
